import Mathlib

/-!
A shallow embedding of the Pix2Seq detection task
(`official/projects/pix2seq/tasks/pix2seq_task.py`) and proofs of its
specified properties.  External library calls (backbone factory, COCO
evaluator, sequence decoding utilities, checkpoint file resolution) are
modelled as abstract parameters or as record-building constructors that
record exactly the arguments the task passes to them; the control flow
and arithmetic of the task file itself are translated faithfully.
-/

namespace Pix2Seq

/-- Backbone sub-config (`backbone_config.backbone`); only its `type`
field is inspected by this file. -/
structure BackboneSpec where
  type : String := ""
  deriving DecidableEq

/-- Opaque normalization/activation config payload; its contents are
external to this file and are only passed through to the factory. -/
structure NormActivation where
  payload : Nat := 0
  deriving DecidableEq

/-- One entry of `config.backbones`. -/
structure BackboneConfig where
  backbone : BackboneSpec := {}
  norm_activation : NormActivation := {}
  freeze : Bool := false
  endpoint_name : String := ""
  init_checkpoint : String := ""
  deriving DecidableEq

/-- The `Pix2Seq` model config (`self._task_config.model`); fields not
read by the task file carry their plain payload types. -/
structure Pix2SeqModelCfg where
  input_size : List Nat := []
  backbones : List BackboneConfig := []
  max_num_instances : Nat := 0
  vocab_size : Nat := 0
  hidden_size : Nat := 0
  num_encoder_layers : Nat := 0
  num_decoder_layers : Nat := 0
  drop_path : ℚ := 0
  encoded_feature_dropout_rates : List ℚ := []
  drop_units : ℚ := 0
  drop_att : ℚ := 0
  num_heads : Nat := 0
  temperature : ℚ := 0
  top_p : ℚ := 0
  top_k : Nat := 0
  early_stopping_token : Option Nat := none

/-- The `losses` sub-config of the task config. -/
structure LossesCfg where
  eos_token_weight : ℚ := 0

/-- The task config (`self._task_config`).  A Python `None`/unset string
field is modelled as the empty string, matching Python truthiness as it
is used by the task file. -/
structure TaskConfig where
  model : Pix2SeqModelCfg := {}
  init_checkpoint : String := ""
  init_checkpoint_modules : String := ""
  losses : LossesCfg := {}
  coord_vocab_shift : Nat := 0
  quantization_bins : Nat := 0
  annotation_file : String := ""
  per_category_metrics : Bool := false

/-- An observable checkpoint-restoration action performed by
`Pix2SeqTask.initialize`.  `globalRestore` records the resolved file and
whether `assert_existing_objects_matched` was called on the restore
status; the two backbone constructors distinguish the `uvit`
`load_checkpoint` path from the generic `tf.train.Checkpoint` path
(which always asserts a match, line 145). -/
inductive RestoreEvent where
  | globalRestore (file : String) (assert_matched : Bool)
  | backboneLoadCheckpoint (index : Nat) (file : String)
  | backboneRestore (index : Nat) (file : String)
  deriving DecidableEq

/-- The backbone loop of `Pix2SeqTask.initialize` (lines 131-149):
for each backbone config with a truthy `init_checkpoint`, restore it,
via `load_checkpoint` when the backbone type is `uvit` and via a
`tf.train.Checkpoint` restore otherwise.  `g` models `self._get_ckpt`
(directory-to-latest-file resolution, a filesystem lookup). -/
def backboneRestoreEvents (g : String → String) : Nat → List BackboneConfig → List RestoreEvent
  | _, [] => []
  | i, b :: rest =>
      if b.init_checkpoint = "" then backboneRestoreEvents g (i + 1) rest
      else if b.backbone.type = "uvit" then
        RestoreEvent.backboneLoadCheckpoint i (g b.init_checkpoint)
          :: backboneRestoreEvents g (i + 1) rest
      else
        RestoreEvent.backboneRestore i (g b.init_checkpoint)
          :: backboneRestoreEvents g (i + 1) rest

/-- Shallow embedding of `Pix2SeqTask.initialize` (lines 97-149).  The
Lean keyword `initialize` is unavailable, hence the name.  A raised
`ValueError` is an `Except.error` carrying the message; a normal return
is the list of restoration actions performed, in order. -/
def initializeTask (cfg : TaskConfig) (g : String → String) :
    Except String (List RestoreEvent) :=
  if cfg.init_checkpoint_modules = "backbone" then
    Except.error
      "init_checkpoint_modules=backbone is deprecated. Specify backbone checkpoints in each backbone config."
  else if cfg.init_checkpoint_modules ∉ ["all", "partial", ""] then
    Except.error
      ("Unsupported init_checkpoint_modules: " ++ cfg.init_checkpoint_modules)
  else if cfg.init_checkpoint ≠ "" ∧
      cfg.model.backbones.any (fun b => b.init_checkpoint ≠ "") then
    Except.error
      "A global init_checkpoint and a backbone init_checkpoint cannot be specified at the same time."
  else if cfg.init_checkpoint ≠ "" then
    Except.ok
      [RestoreEvent.globalRestore (g cfg.init_checkpoint)
        (cfg.init_checkpoint_modules != "partial")]
  else
    Except.ok (backboneRestoreEvents g 0 cfg.model.backbones)

/-- Restoration actions actually performed: none when an error was
raised (all `raise` statements in `initialize` precede any restore). -/
def restoredEvents : Except String (List RestoreEvent) → List RestoreEvent
  | Except.error _ => []
  | Except.ok l => l

/-- A Keras `InputSpec`; the task builds it with
`shape=[None] + config.input_size` (lines 52-54), `None` being a free
batch dimension. -/
structure InputSpec where
  shape : List (Option Nat) := []
  deriving DecidableEq

/-- A backbone model returned by `backbones_lib.factory.build_backbone`,
recording the arguments it was built from and its `trainable` flag
(Keras models are created trainable). -/
structure BuiltBackbone where
  input_specs : InputSpec
  backbone_config : BackboneSpec
  norm_activation : NormActivation
  trainable : Bool := true
  deriving DecidableEq

/-- The external call `backbones_lib.factory.build_backbone` (lines
58-62), modelled as recording its arguments. -/
def build_backbone (input_specs : InputSpec) (backbone_config : BackboneSpec)
    (norm_activation_config : NormActivation) : BuiltBackbone :=
  { input_specs := input_specs
    backbone_config := backbone_config
    norm_activation := norm_activation_config }

/-- Shallow embedding of
`Pix2SeqTask._build_backbones_and_endpoint_names` (lines 47-66): for
each backbone config, build the backbone, set its `trainable` flag to
the negation of `freeze`, and collect the endpoint name. -/
def build_backbones_and_endpoint_names (cfg : TaskConfig) :
    List BuiltBackbone × List String :=
  let input_specs : InputSpec := { shape := none :: cfg.model.input_size.map some }
  (cfg.model.backbones.map fun bc =>
      { build_backbone input_specs bc.backbone bc.norm_activation with
          trainable := !bc.freeze },
   cfg.model.backbones.map fun bc => bc.endpoint_name)

/-- The argument record of the `pix2seq_model.Pix2Seq` constructor call
in `build_model` (lines 72-89). -/
structure Pix2SeqModelArgs where
  backbones : List BuiltBackbone
  backbone_endpoint_name : List String
  max_seq_len : Nat
  vocab_size : Nat
  hidden_size : Nat
  num_encoder_layers : Nat
  num_decoder_layers : Nat
  drop_path : ℚ
  encoded_feature_dropout_rates : List ℚ
  drop_units : ℚ
  drop_att : ℚ
  num_heads : Nat
  temperature : ℚ
  top_p : ℚ
  top_k : Nat
  early_stopping_token : Option Nat

/-- Shallow embedding of `Pix2SeqTask.build_model` (lines 68-90). -/
def build_model (cfg : TaskConfig) : Pix2SeqModelArgs :=
  let be := build_backbones_and_endpoint_names cfg
  { backbones := be.1
    backbone_endpoint_name := be.2
    max_seq_len := cfg.model.max_num_instances * 5
    vocab_size := cfg.model.vocab_size
    hidden_size := cfg.model.hidden_size
    num_encoder_layers := cfg.model.num_encoder_layers
    num_decoder_layers := cfg.model.num_decoder_layers
    drop_path := cfg.model.drop_path
    encoded_feature_dropout_rates := cfg.model.encoded_feature_dropout_rates
    drop_units := cfg.model.drop_units
    drop_att := cfg.model.drop_att
    num_heads := cfg.model.num_heads
    temperature := cfg.model.temperature
    top_p := cfg.model.top_p
    top_k := cfg.model.top_k
    early_stopping_token := cfg.model.early_stopping_token }

/-- Config of the `simple_decoder` oneof branch. -/
structure SimpleDecoderCfg where
  regenerate_source_id : Bool := false
  deriving DecidableEq

/-- Config of the `label_map_decoder` oneof branch. -/
structure LabelMapDecoderCfg where
  label_map : String := ""
  regenerate_source_id : Bool := false
  deriving DecidableEq

/-- The `params.decoder` oneof: a type tag plus the per-branch configs
(`params.decoder.get()` returns the branch selected by `type`). -/
structure DecoderOneOf where
  type : String := ""
  simple_decoder : SimpleDecoderCfg := {}
  label_map_decoder : LabelMapDecoderCfg := {}
  deriving DecidableEq

/-- The data params consumed by `build_inputs`; unset `tfds_name` is the
empty string (Python falsiness). -/
structure DataParams where
  tfds_name : String := ""
  decoder : DecoderOneOf := {}
  is_training : Bool := false
  file_type : String := ""
  aug_scale_min : ℚ := 1
  aug_scale_max : ℚ := 1
  aug_color_jitter_strength : ℚ := 0
  label_shift : Int := 0

/-- A decoder selected by `build_inputs`, recording which constructor
was invoked and with which arguments (lines 156-172). -/
inductive Decoder where
  | tfdsDetectionDecoder (tfds_name : String)
  | tfExampleDecoder (regenerate_source_id : Bool)
  | tfExampleDecoderLabelMap (label_map : String) (regenerate_source_id : Bool)
  deriving DecidableEq

/-- The argument record of the `pix2seq_input.Parser` constructor call
(lines 174-184). -/
structure ParserArgs where
  eos_token_weight : ℚ
  output_size : List Nat
  max_num_boxes : Nat
  coord_vocab_shift : Nat
  quantization_bins : Nat
  aug_scale_min : ℚ
  aug_scale_max : ℚ
  aug_color_jitter_strength : ℚ
  label_shift : Int

/-- The parser the task constructs from its own config and the data
params (lines 174-184); `output_size` is the first two entries of the
model `input_size`. -/
def mkParser (cfg : TaskConfig) (params : DataParams) : ParserArgs :=
  { eos_token_weight := cfg.losses.eos_token_weight
    output_size := cfg.model.input_size.take 2
    max_num_boxes := cfg.model.max_num_instances
    coord_vocab_shift := cfg.coord_vocab_shift
    quantization_bins := cfg.quantization_bins
    aug_scale_min := params.aug_scale_min
    aug_scale_max := params.aug_scale_max
    aug_color_jitter_strength := params.aug_color_jitter_strength
    label_shift := params.label_shift }

/-- The input pipeline `build_inputs` hands to the reader (lines
186-192): the chosen decoder, the parser wrapping it, the training flag
passed to `parser.parse_fn`, and the file type picking the dataset
function. -/
structure InputPipeline where
  decoder : Decoder
  parser : ParserArgs
  parser_is_training : Bool
  file_type : String

/-- Shallow embedding of `Pix2SeqTask.build_inputs` (lines 151-194):
select the decoder (TFDS when `tfds_name` is set, else by
`params.decoder.type`, raising on unknown types), then wrap it with the
task's parser in the reader. -/
def build_inputs (cfg : TaskConfig) (params : DataParams) :
    Except String InputPipeline := do
  let decoder ←
    if params.tfds_name ≠ "" then
      pure (Decoder.tfdsDetectionDecoder params.tfds_name)
    else if params.decoder.type = "simple_decoder" then
      pure (Decoder.tfExampleDecoder params.decoder.simple_decoder.regenerate_source_id)
    else if params.decoder.type = "label_map_decoder" then
      pure (Decoder.tfExampleDecoderLabelMap
        params.decoder.label_map_decoder.label_map
        params.decoder.label_map_decoder.regenerate_source_id)
    else
      Except.error ("Unknown decoder type: " ++ params.decoder.type ++ "!")
  pure
    { decoder := decoder
      parser := mkParser cfg params
      parser_is_training := params.is_training
      file_type := params.file_type }

/-- A `tf_keras.metrics.Mean` metric, recording its construction
arguments (line 220). -/
structure MeanMetric where
  name : String
  dtype : String
  deriving DecidableEq

/-- The COCO evaluator object, recording its construction arguments
(lines 223-228) and the accumulated per-batch state it has been fed.
`GT` and `PR` are the types of one batch's ground truths and
predictions. -/
structure COCOEvaluator (GT PR : Type) where
  annotation_file : String
  include_mask : Bool
  need_rescale_bboxes : Bool
  per_category_metrics : Bool
  accum : List (GT × PR) := []

/-- The external `COCOEvaluator.reset_states` call: clears accumulated
state. -/
def COCOEvaluator.reset_states {GT PR : Type} (e : COCOEvaluator GT PR) :
    COCOEvaluator GT PR :=
  { e with accum := [] }

/-- The external `COCOEvaluator.update_state` call: feeds one batch's
ground truths and predictions into the accumulated state. -/
def COCOEvaluator.update_state {GT PR : Type} (e : COCOEvaluator GT PR)
    (groundtruths : GT) (predictions : PR) : COCOEvaluator GT PR :=
  { e with accum := e.accum ++ [(groundtruths, predictions)] }

/-- Shallow embedding of `Pix2SeqTask.build_metrics` (lines 215-229):
the metrics list, and the COCO evaluator assigned to `self.coco_metric`
when one is constructed (`none` when `training` is true and the
assignment does not happen). -/
def build_metrics (GT PR : Type) (cfg : TaskConfig) (training : Bool) :
    List MeanMetric × Option (COCOEvaluator GT PR) :=
  (["loss"].map fun name => { name := name, dtype := "float32" },
   if training then none
   else some
     { annotation_file := cfg.annotation_file
       include_mask := false
       need_rescale_bboxes := false
       per_category_metrics := cfg.per_category_metrics })

/-- The call `tf.one_hot(t, v)` for a single scalar target `t`: the
indicator vector of index `t` over `v` classes (all zeros when `t` is
out of range, as in TensorFlow). -/
def oneHot (v : Nat) (t : Nat) : Fin v → ℝ :=
  fun i => if i.val = t then 1 else 0

/-- Log of the sum of exponentials of a logits vector. -/
noncomputable def logSumExp {v : Nat} (x : Fin v → ℝ) : ℝ :=
  Real.log (∑ j, Real.exp (x j))

/-- Keras `CategoricalCrossentropy(from_logits=True, reduction=NONE)`
applied to one position: the negative inner product of the target
distribution with the log-softmax of the logits. -/
noncomputable def categoricalCrossentropyFromLogits {v : Nat}
    (y : Fin v → ℝ) (logits : Fin v → ℝ) : ℝ :=
  -(∑ i, y i * (logits i - logSumExp logits))

/-- Shallow embedding of `Pix2SeqTask.build_losses` (lines 196-213).
The flattened index `i : Fin n` ranges over all (batch, sequence)
positions; `v` is `self._task_config.model.vocab_size`; `aux_losses` is
the Python argument with `None` modelled as the empty list (both are
falsy, making `tf.add_n(aux_losses) if aux_losses else 0.0` yield 0). -/
noncomputable def build_losses {n v : Nat} (outputs : Fin n → Fin v → ℝ)
    (targets : Fin n → Nat) (weights : Fin n → ℝ)
    (aux_losses : List ℝ) : ℝ :=
  let onehot : Fin n → Fin v → ℝ := fun i => oneHot v (targets i)
  let loss : Fin n → ℝ := fun i =>
    categoricalCrossentropyFromLogits (onehot i) (outputs i)
  let weighted : ℝ := (∑ i, loss i * weights i) / (∑ i, weights i)
  let aux : ℝ := if aux_losses.isEmpty then 0 else aux_losses.sum
  weighted + aux

/-- Restatement of the spec's loss formula for one target token, for
comparison with the code: the log-sum-exp of the logits minus the logit
of the target class (the one-hot cross-entropy in closed form; 0 when
the target index is out of the vocabulary). -/
noncomputable def specCrossEntropy {v : Nat} (logits : Fin v → ℝ)
    (t : Nat) : ℝ :=
  if h : t < v then logSumExp logits - logits ⟨t, h⟩ else 0

/-- Restatement of the spec's words for the total loss without auxiliary
terms: per-token cross-entropies multiplied elementwise by the weights,
summed, and divided by the summed weights. -/
noncomputable def specWeightedLoss {n v : Nat} (outputs : Fin n → Fin v → ℝ)
    (targets : Fin n → Nat) (weights : Fin n → ℝ) : ℝ :=
  (∑ i, specCrossEntropy (outputs i) (targets i) * weights i) /
    (∑ i, weights i)

/-- The labels dictionary consumed by `train_step` and `build_losses`:
`targets` and `weights` over the flattened positions, plus the opaque
`inputs` tokens fed to the model forward pass. -/
structure TrainLabels (n : Nat) (P : Type) where
  targets : Fin n → Nat
  weights : Fin n → ℝ
  inputs : P

/-- The observable outcome of one `train_step` call: the loss put into
`logs`, the `all_losses` dictionary used for metric updates, the value
handed to `tape.gradient`, and whether `get_unscaled_gradients` was
applied before `optimizer.apply_gradients`. -/
structure TrainStepTrace where
  logged_loss : ℝ
  all_losses : List (String × ℝ)
  grad_source : ℝ
  grads_unscaled_before_apply : Bool

/-- Shallow embedding of `Pix2SeqTask.train_step` (lines 231-278).
`outputs` is the (float32-cast) model forward result on
`(features, labels.inputs)`; `model_losses` is `model.losses`;
`loss_scale` is `some k` when the optimizer is a `LossScaleOptimizer`
whose `get_scaled_loss` multiplies by `k`, and `none` otherwise. -/
noncomputable def train_step {n v : Nat} {P : Type}
    (outputs : Fin n → Fin v → ℝ) (labels : TrainLabels n P)
    (model_losses : List ℝ) (num_replicas : Nat)
    (loss_scale : Option ℝ) : TrainStepTrace :=
  let loss := build_losses outputs labels.targets labels.weights model_losses
  let scaled_loss := loss / (num_replicas : ℝ)
  let scaled_loss :=
    match loss_scale with
    | some k => k * scaled_loss
    | none => scaled_loss
  { logged_loss := loss
    all_losses := [("loss", loss)]
    grad_source := scaled_loss
    grads_unscaled_before_apply := loss_scale.isSome }

/-- The labels dictionary consumed by `validation_step`: per-image
metadata over a batch of `B` images with up to `M` ground-truth boxes
each; `prompt` is the opaque generation prompt. -/
structure ValLabels (B M : Nat) (P : Type) where
  prompt : P
  image_info : Fin B → Fin 4 → Fin 2 → ℝ
  id : Fin B → Nat
  classes : Fin B → Fin M → Int
  gt_boxes : Fin B → Fin M → Fin 4 → ℝ
  is_crowd : Fin B → Fin M → Bool

/-- The `predictions` dictionary packaged by `validation_step` (lines
324-331); decoded classes/boxes/scores/counts keep the abstract types
produced by the external decoding utility. -/
structure Predictions (C Bx S N : Type) (B : Nat) where
  detection_boxes : Bx
  detection_scores : S
  detection_classes : C
  num_detections : N
  source_id : Fin B → Nat
  image_info : Fin B → Fin 4 → Fin 2 → ℝ

/-- The `ground_truths` dictionary packaged by `validation_step` (lines
333-343). -/
structure GroundTruths (B M : Nat) where
  source_id : Fin B → Nat
  height : Fin B → ℝ
  width : Fin B → ℝ
  num_detections : Fin B → Nat
  boxes : Fin B → Fin M → Fin 4 → ℝ
  classes : Fin B → Fin M → Int
  is_crowds : Fin B → Fin M → Bool

/-- The logs dictionary returned by `validation_step`: the logged loss,
the packaged predictions and ground truths, and the `all_losses`
dictionary used for metric updates. -/
structure ValLogs (C Bx S N : Type) (B M : Nat) where
  loss : ℝ
  predictions : Predictions C Bx S N B
  ground_truths : GroundTruths B M
  all_losses : List (String × ℝ)

/-- Shallow embedding of `Pix2SeqTask.validation_step` (lines 280-354).
External collaborators are parameters: `model_infer` is the model called
with `training=False` returning (tokens, logits); `decode` is
`utils.decode_object_seq_to_bbox`; `scale_points` is
`utils.scale_points`.  `features_hw` is `features.shape[1:3]` as floats
(the model input height and width). -/
noncomputable def validation_step {B M : Nat} {F P T L C Bx S N : Type}
    (model_infer : F → P → T × L)
    (decode : L → T → Nat → Nat → C × Bx × S × N)
    (scale_points : Bx → (Fin B → Fin 2 → ℝ) → Bx)
    (cfg : TaskConfig) (num_replicas : Nat)
    (features : F) (features_hw : Fin 2 → ℝ)
    (labels : ValLabels B M P) : ValLogs C Bx S N B M :=
  let tl := model_infer features labels.prompt
  let loss : ℝ := 0
  let loss := loss * (num_replicas : ℝ)
  let outs := decode tl.2 tl.1 cfg.quantization_bins cfg.coord_vocab_shift
  let scale : Fin B → Fin 2 → ℝ := fun b j =>
    features_hw j / labels.image_info b 1 j * labels.image_info b 0 j
  let pred_bboxes := scale_points outs.2.1 scale
  { loss := loss
    predictions :=
      { detection_boxes := pred_bboxes
        detection_scores := outs.2.2.1
        detection_classes := outs.1
        num_detections := outs.2.2.2
        source_id := labels.id
        image_info := labels.image_info }
    ground_truths :=
      { source_id := labels.id
        height := fun b => labels.image_info b 0 0
        width := fun b => labels.image_info b 0 1
        num_detections := fun b => ∑ m, if 0 < labels.classes b m then 1 else 0
        boxes := labels.gt_boxes
        classes := labels.classes
        is_crowds := labels.is_crowd }
    all_losses := [("loss", loss)] }

/-- One step's outputs as consumed by `aggregate_logs`: the
`ground_truths` and `predictions` entries of the step logs. -/
structure StepOutputs (GT PR : Type) where
  ground_truths : GT
  predictions : PR

/-- Shallow embedding of `Pix2SeqTask.aggregate_logs` (lines 356-364):
when called with no state, reset the task's evaluator and use it as the
state; then feed the batch's ground truths and predictions to the
state. -/
def aggregate_logs {GT PR : Type} (coco_metric : COCOEvaluator GT PR)
    (state : Option (COCOEvaluator GT PR))
    (step_outputs : StepOutputs GT PR) : COCOEvaluator GT PR :=
  match state with
  | none =>
      coco_metric.reset_states.update_state
        step_outputs.ground_truths step_outputs.predictions
  | some s =>
      s.update_state step_outputs.ground_truths step_outputs.predictions

/-- Shallow embedding of `Pix2SeqTask.reduce_aggregated_logs` (lines
366-367): return the evaluator's `result()`; the external `result`
computation is a parameter. -/
def reduce_aggregated_logs {GT PR R : Type}
    (result : COCOEvaluator GT PR → R)
    (aggregated_logs : COCOEvaluator GT PR) : R :=
  result aggregated_logs

/-- Concrete task config setting both a global checkpoint and a backbone
checkpoint. -/
def cfgConflict : TaskConfig :=
  { init_checkpoint := "gs://global-ckpt"
    init_checkpoint_modules := "all"
    model := { backbones := [{ init_checkpoint := "gs://backbone-ckpt" }] } }

/-- Concrete task config with the deprecated modules value. -/
def cfgModulesBackbone : TaskConfig :=
  { init_checkpoint_modules := "backbone" }

/-- Concrete task config with an unsupported modules value. -/
def cfgModulesBogus : TaskConfig :=
  { init_checkpoint_modules := "bogus" }

/-- Concrete task config restoring a global checkpoint with
`init_checkpoint_modules = 'all'`. -/
def cfgModulesAll : TaskConfig :=
  { init_checkpoint := "ck", init_checkpoint_modules := "all" }

/-- No event produced by the backbone restore loop is a global
restore. -/
theorem backboneRestoreEvents_no_global (g : String → String) :
    ∀ (i : Nat) (l : List BackboneConfig) (file : String) (a : Bool),
      RestoreEvent.globalRestore file a ∉ backboneRestoreEvents g i l := by
  intro i l
  induction l generalizing i with
  | nil =>
      intro file a h
      simp [backboneRestoreEvents] at h
  | cons b rest ih =>
      intro file a h
      unfold backboneRestoreEvents at h
      split_ifs at h
      · exact ih _ file a h
      · rcases List.mem_cons.mp h with h' | h'
        · simp at h'
        · exact ih _ file a h'
      · rcases List.mem_cons.mp h with h' | h'
        · simp at h'
        · exact ih _ file a h'

/-- C2: when a global `init_checkpoint` is set and some backbone config
also sets one, `initialize` raises an error and restores nothing. -/
theorem initializeTask_conflict (cfg : TaskConfig) (g : String → String)
    (h1 : cfg.init_checkpoint ≠ "")
    (h2 : ∃ b ∈ cfg.model.backbones, b.init_checkpoint ≠ "") :
    (∃ msg, initializeTask cfg g = Except.error msg) ∧
      restoredEvents (initializeTask cfg g) = [] := by
  have hany : cfg.model.backbones.any (fun b => b.init_checkpoint ≠ "") = true := by
    rcases h2 with ⟨b, hb, hne⟩
    exact List.any_eq_true.mpr ⟨b, hb, decide_eq_true hne⟩
  unfold initializeTask
  split_ifs with hA hB hC
  all_goals first
    | exact ⟨⟨_, rfl⟩, rfl⟩
    | exact absurd ⟨h1, hany⟩ hC

/-- Witness for `initializeTask_conflict` at `cfgConflict`. -/
theorem initializeTask_conflict_witness :
    (∃ msg, initializeTask cfgConflict id = Except.error msg) ∧
      restoredEvents (initializeTask cfgConflict id) = [] :=
  initializeTask_conflict cfgConflict id (by decide)
    ⟨{ init_checkpoint := "gs://backbone-ckpt" }, by decide, by decide⟩

/-- C3: `initialize` rejects the deprecated value `backbone` and every
modules value outside `all`, `partial`, the empty string; on a
successful global restore, the existing-objects-matched assertion is
performed exactly when the modules value differs from `partial`. -/
theorem initializeTask_modules_validation (cfg : TaskConfig)
    (g : String → String) :
    (cfg.init_checkpoint_modules = "backbone" →
        ∃ msg, initializeTask cfg g = Except.error msg) ∧
    (cfg.init_checkpoint_modules ∉ ["all", "partial", ""] →
        ∃ msg, initializeTask cfg g = Except.error msg) ∧
    (∀ (evs : List RestoreEvent) (file : String) (a : Bool),
        initializeTask cfg g = Except.ok evs →
        RestoreEvent.globalRestore file a ∈ evs →
        (a = true ↔ cfg.init_checkpoint_modules ≠ "partial")) := by
  refine ⟨fun hbk => ?_, fun hbad => ?_, fun evs file a hok hmem => ?_⟩
  · unfold initializeTask
    rw [if_pos hbk]
    exact ⟨_, rfl⟩
  · unfold initializeTask
    by_cases h1 : cfg.init_checkpoint_modules = "backbone"
    · rw [if_pos h1]
      exact ⟨_, rfl⟩
    · rw [if_neg h1, if_pos hbad]
      exact ⟨_, rfl⟩
  · unfold initializeTask at hok
    split_ifs at hok with h1 h2 h3 h4
    · injection hok with hlist
      subst hlist
      simp only [List.mem_singleton] at hmem
      injection hmem with hf ha
      rw [ha]
      simp [bne_iff_ne]
    · injection hok with hlist
      subst hlist
      exact absurd hmem (backboneRestoreEvents_no_global g 0 _ file a)

/-- Witness for `initializeTask_modules_validation`: the deprecated and
the unsupported modules values raise, and a global restore under `all`
asserts the match. -/
theorem initializeTask_modules_validation_witness :
    ((∃ msg, initializeTask cfgModulesBackbone id = Except.error msg) ∧
     (∃ msg, initializeTask cfgModulesBogus id = Except.error msg)) ∧
    (true = true ↔ cfgModulesAll.init_checkpoint_modules ≠ "partial") :=
  ⟨⟨(initializeTask_modules_validation cfgModulesBackbone id).1 rfl,
    (initializeTask_modules_validation cfgModulesBogus id).2.1 (by decide)⟩,
   (initializeTask_modules_validation cfgModulesAll id).2.2
     [RestoreEvent.globalRestore "ck" true] "ck" true rfl
     (List.mem_singleton.mpr rfl)⟩

/-- C4: `build_inputs` selects the TFDS detection decoder when
`tfds_name` is set, else the raw example decoder for
`simple_decoder`, the label-map decoder for `label_map_decoder`, and
raises on any other type; every non-error result wraps the chosen
decoder with the task's parser. -/
theorem build_inputs_decoder_selection (cfg : TaskConfig)
    (params : DataParams) :
    build_inputs cfg params =
      (if params.tfds_name ≠ "" then
        Except.ok
          { decoder := Decoder.tfdsDetectionDecoder params.tfds_name
            parser := mkParser cfg params
            parser_is_training := params.is_training
            file_type := params.file_type }
      else if params.decoder.type = "simple_decoder" then
        Except.ok
          { decoder := Decoder.tfExampleDecoder
              params.decoder.simple_decoder.regenerate_source_id
            parser := mkParser cfg params
            parser_is_training := params.is_training
            file_type := params.file_type }
      else if params.decoder.type = "label_map_decoder" then
        Except.ok
          { decoder := Decoder.tfExampleDecoderLabelMap
              params.decoder.label_map_decoder.label_map
              params.decoder.label_map_decoder.regenerate_source_id
            parser := mkParser cfg params
            parser_is_training := params.is_training
            file_type := params.file_type }
      else
        Except.error ("Unknown decoder type: " ++ params.decoder.type ++ "!")) := by
  unfold build_inputs
  split_ifs <;> rfl

/-- C5: `build_metrics` returns exactly one metric, a float32 running
mean named `loss`, for both modes; the COCO evaluator is constructed
and stored on the task exactly when `training` is false, with the
configured annotation file, no masks, no bbox rescaling, and empty
accumulated state. -/
theorem build_metrics_loss_and_coco (GT PR : Type) (cfg : TaskConfig)
    (training : Bool) :
    (build_metrics GT PR cfg training).1 =
        [{ name := "loss", dtype := "float32" }] ∧
    ((build_metrics GT PR cfg training).2 =
        if training then none
        else some
          { annotation_file := cfg.annotation_file
            include_mask := false
            need_rescale_bboxes := false
            per_category_metrics := cfg.per_category_metrics
            accum := [] }) ∧
    ((build_metrics GT PR cfg training).2.isSome ↔ training = false) := by
  refine ⟨rfl, rfl, ?_⟩
  cases training <;> simp [build_metrics]

/-- C9: the model built by `build_model` receives a maximum sequence
length of exactly 5 times the configured `max_num_instances`. -/
theorem build_model_max_seq_len (cfg : TaskConfig) :
    (build_model cfg).max_seq_len = 5 * cfg.model.max_num_instances := by
  simp [build_model, Nat.mul_comm]

/-- C10: the backbone builder returns two lists of equal length, one
entry per backbone config in config order; each built backbone is
trainable exactly when its config does not set `freeze`, and the
endpoint names follow the configs. -/
theorem build_backbones_and_endpoint_names_aligned (cfg : TaskConfig) :
    (build_backbones_and_endpoint_names cfg).1.length =
        cfg.model.backbones.length ∧
    (build_backbones_and_endpoint_names cfg).2.length =
        cfg.model.backbones.length ∧
    (∀ i : Nat,
      ((build_backbones_and_endpoint_names cfg).1.get? i).map
          (fun b => b.trainable) =
        (cfg.model.backbones.get? i).map (fun bc => !bc.freeze)) ∧
    (∀ i : Nat,
      (build_backbones_and_endpoint_names cfg).2.get? i =
        (cfg.model.backbones.get? i).map (fun bc => bc.endpoint_name)) := by
  refine ⟨?_, ?_, fun i => ?_, fun i => ?_⟩
  · simp [build_backbones_and_endpoint_names]
  · simp [build_backbones_and_endpoint_names]
  · simp only [build_backbones_and_endpoint_names, List.get?_eq_getElem?,
      List.getElem?_map]
    cases cfg.model.backbones[i]? <;> rfl
  · simp only [build_backbones_and_endpoint_names, List.get?_eq_getElem?,
      List.getElem?_map]

/-- C6: `train_step` logs and feeds the metric with the unscaled loss
from `build_losses`; the replica division and the optional
mixed-precision scaling touch only the value handed to the gradient
tape, and gradients are unscaled before the optimizer update exactly
when a loss-scale optimizer is in use. -/
theorem train_step_logs_unscaled_loss {n v : Nat} {P : Type}
    (outputs : Fin n → Fin v → ℝ) (labels : TrainLabels n P)
    (model_losses : List ℝ) (num_replicas : Nat)
    (loss_scale : Option ℝ) :
    (train_step outputs labels model_losses num_replicas loss_scale).logged_loss
        = build_losses outputs labels.targets labels.weights model_losses ∧
    (train_step outputs labels model_losses num_replicas loss_scale).all_losses
        = [("loss",
            build_losses outputs labels.targets labels.weights model_losses)] ∧
    (train_step outputs labels model_losses num_replicas loss_scale).grad_source
        = (match loss_scale with
           | some k => k *
               (build_losses outputs labels.targets labels.weights model_losses
                 / (num_replicas : ℝ))
           | none =>
               build_losses outputs labels.targets labels.weights model_losses
                 / (num_replicas : ℝ)) ∧
    (train_step outputs labels model_losses num_replicas
        loss_scale).grads_unscaled_before_apply = loss_scale.isSome := by
  cases loss_scale <;> exact ⟨rfl, rfl, rfl, rfl⟩

/-- C8: the loss written by `validation_step` into its logs and into
the `loss` metric is exactly 0, whatever the model, the inputs and the
replica count (the loss computation is commented out and multiplying
the constant 0 by the replica count leaves 0). -/
theorem validation_step_loss_is_zero {B M : Nat} {F P T L C Bx S N : Type}
    (model_infer : F → P → T × L)
    (decode : L → T → Nat → Nat → C × Bx × S × N)
    (scale_points : Bx → (Fin B → Fin 2 → ℝ) → Bx)
    (cfg : TaskConfig) (num_replicas : Nat)
    (features : F) (features_hw : Fin 2 → ℝ)
    (labels : ValLabels B M P) :
    (validation_step model_infer decode scale_points cfg num_replicas
        features features_hw labels).loss = 0 ∧
    (validation_step model_infer decode scale_points cfg num_replicas
        features features_hw labels).all_losses = [("loss", 0)] := by
  constructor
  · simp [validation_step]
  · simp [validation_step]

/-- C7: `validation_step` packages the decoded, rescaled predictions
and the ground truths (with detections counted as labels of positive
class) into its logs; `aggregate_logs` feeds the pair to the COCO
evaluator, resetting its accumulated state exactly when the state is
`none`; `reduce_aggregated_logs` returns the evaluator's result. -/
theorem validation_step_packaging_and_aggregation
    {B M : Nat} {F P T L C Bx S N GT PR R : Type}
    (model_infer : F → P → T × L)
    (decode : L → T → Nat → Nat → C × Bx × S × N)
    (scale_points : Bx → (Fin B → Fin 2 → ℝ) → Bx)
    (cfg : TaskConfig) (num_replicas : Nat)
    (features : F) (features_hw : Fin 2 → ℝ)
    (labels : ValLabels B M P)
    (coco_metric s : COCOEvaluator GT PR)
    (step_outputs : StepOutputs GT PR)
    (result : COCOEvaluator GT PR → R)
    (agg : COCOEvaluator GT PR) :
    (validation_step model_infer decode scale_points cfg num_replicas
        features features_hw labels).predictions =
      { detection_boxes :=
          scale_points
            (decode (model_infer features labels.prompt).2
              (model_infer features labels.prompt).1
              cfg.quantization_bins cfg.coord_vocab_shift).2.1
            (fun b j =>
              features_hw j / labels.image_info b 1 j * labels.image_info b 0 j)
        detection_scores :=
          (decode (model_infer features labels.prompt).2
            (model_infer features labels.prompt).1
            cfg.quantization_bins cfg.coord_vocab_shift).2.2.1
        detection_classes :=
          (decode (model_infer features labels.prompt).2
            (model_infer features labels.prompt).1
            cfg.quantization_bins cfg.coord_vocab_shift).1
        num_detections :=
          (decode (model_infer features labels.prompt).2
            (model_infer features labels.prompt).1
            cfg.quantization_bins cfg.coord_vocab_shift).2.2.2
        source_id := labels.id
        image_info := labels.image_info } ∧
    (validation_step model_infer decode scale_points cfg num_replicas
        features features_hw labels).ground_truths =
      { source_id := labels.id
        height := fun b => labels.image_info b 0 0
        width := fun b => labels.image_info b 0 1
        num_detections := fun b => ∑ m, if 0 < labels.classes b m then 1 else 0
        boxes := labels.gt_boxes
        classes := labels.classes
        is_crowds := labels.is_crowd } ∧
    (aggregate_logs coco_metric none step_outputs).accum =
      [(step_outputs.ground_truths, step_outputs.predictions)] ∧
    (aggregate_logs coco_metric (some s) step_outputs).accum =
      s.accum ++ [(step_outputs.ground_truths, step_outputs.predictions)] ∧
    reduce_aggregated_logs result agg = result agg :=
  ⟨rfl, rfl, rfl, rfl, rfl⟩

/-- Cross-entropy from logits against a one-hot target reduces to the
log-sum-exp of the logits minus the target-class logit (and to 0 when
the target index is outside the vocabulary). -/
theorem cce_oneHot {v : Nat} (logits : Fin v → ℝ) (t : Nat) :
    categoricalCrossentropyFromLogits (oneHot v t) logits =
      specCrossEntropy logits t := by
  unfold categoricalCrossentropyFromLogits oneHot specCrossEntropy
  by_cases h : t < v
  · rw [dif_pos h]
    have hsum : (∑ i : Fin v,
        (if i.val = t then (1 : ℝ) else 0) * (logits i - logSumExp logits))
        = logits ⟨t, h⟩ - logSumExp logits := by
      rw [Finset.sum_eq_single ⟨t, h⟩]
      · simp
      · intro j _ hj
        have hjv : j.val ≠ t := fun hv => hj (Fin.ext hv)
        simp [hjv]
      · intro habs
        exact absurd (Finset.mem_univ _) habs
    rw [hsum]
    ring
  · rw [dif_neg h]
    have hz : ∀ i : Fin v,
        (if i.val = t then (1 : ℝ) else 0) * (logits i - logSumExp logits) = 0 := by
      intro i
      have hiv : i.val ≠ t := fun hv => h (hv ▸ i.isLt)
      simp [hiv]
    rw [Finset.sum_congr rfl fun i _ => hz i]
    simp

/-- C1: `build_losses` equals the weighted average the spec describes
(per-token categorical cross-entropy from logits against the one-hot
targets, multiplied elementwise by the weights, summed, divided by the
summed weights), plus the sum of the auxiliary losses when they are
non-empty and nothing otherwise. -/
theorem build_losses_weighted_average {n v : Nat}
    (outputs : Fin n → Fin v → ℝ) (targets : Fin n → Nat)
    (weights : Fin n → ℝ) (aux_losses : List ℝ) :
    build_losses outputs targets weights aux_losses =
      specWeightedLoss outputs targets weights +
        (if aux_losses = [] then 0 else aux_losses.sum) := by
  unfold build_losses specWeightedLoss
  simp only [cce_oneHot, List.isEmpty_iff]

end Pix2Seq
